import Mathlib

/-!
Verification of the corpus-synchronization and vector-index rebuild pipeline

Shallow embedding, in Lean 4, of the parts of the repository that the
specification talks about:

* `src/corpus/clean_events.py` — curation filter on `longDescription`;
* `src/corpus/deduplicate_events.py` — uid-based deduplication;
* `src/corpus/get_corpus_events.py` — date filter and keyed upsert;
* `src/corpus/cleanup_mongodb.py` — backup-by-rename archival;
* `src/embeddings/embeddings.py` — masked average pooling;
* `src/vectors/vectors.py` and `src/pipeline.py` — vector-store creation
  and the delete-after-validate ordering of the rebuild pipeline;
* `src/api/main.py` — rebuild orchestrator state machine.

MongoDB collections are modelled as Lean lists of documents, one structure
per pass (each pass only reads a few fields).  Real-valued tensor arithmetic
is modelled over `ℚ`.  Fallible steps are modelled with `Except`/`Option`.
-/

namespace Project7

/-! ## Curation pass (`src/corpus/clean_events.py`) -/

/-- Constant `MIN_DESCRIPTION_LENGTH` from `clean_events.py` line 24. -/
def MIN_DESCRIPTION_LENGTH : Nat := 100

/-- A document as seen by the curation pass: its `_id` and its
`longDescription` field.  `longDescription = none` models a field that is
absent or BSON `null` (the `$or` query in `clean_events` treats
`$exists: False` and `$eq: None` identically); `some s` models a string
value, including the empty string. -/
structure CleanDoc where
  docId : Nat
  longDescription : Option String
deriving DecidableEq, Repr

/-- The `$or` query of `clean_events` lines 77–83 / 147–153: the document
has no usable description (absent, null, or empty string). -/
def hasNoDescription (d : CleanDoc) : Bool :=
  match d.longDescription with
  | none => true
  | some s => s == ""

/-- The aggregation of `clean_events` lines 89–109: the description field
exists, is neither null nor empty, and its code-point length (`$strLenCP`,
modelled by `String.length`) is strictly below `min_length`. -/
def hasShortDescription (min_length : Nat) (d : CleanDoc) : Bool :=
  match d.longDescription with
  | none => false
  | some s => s != "" && s.length < min_length

/-- Function `clean_events` (lines 51–173): deletes every document matching the
no-description query, and every document found by the short-description
aggregation.  The two `delete_many` calls remove disjoint sets keyed by
`_id`, so the surviving collection is the filter below. -/
def clean_events (min_length : Nat) (coll : List CleanDoc) : List CleanDoc :=
  coll.filter (fun d => !(hasNoDescription d || hasShortDescription min_length d))

/-! ## Deduplication pass (`src/corpus/deduplicate_events.py`) -/

/-- A document as seen by the dedup pass and by ingestion: `_id`, `uid`,
`agendaUid` (the parent catalog id stamped on each event by
`get_corpus_events.py` line 247), and `updatedAt`.

`updatedAt` distinguishes three states of a BSON field:
* `none` — the field is absent from the document;
* `some none` — the field is present with value `null`;
* `some (some s)` — the field holds the string `s`. -/
structure EventDoc where
  docId : Nat
  uid : String
  agendaUid : String
  updatedAt : Option (Option String)
deriving DecidableEq, Repr

/-- One group produced by the `$group` stage of `find_duplicates`. -/
structure DupGroup where
  uid : String
  ids : List Nat
  updatedAts : List (Option String)
  count : Nat
deriving DecidableEq, Repr

/-- The `$push: "$updatedAt"` accumulator of `find_duplicates` line 67.
MongoDB `$push` appends the value of the expression for each document in
the group, in pipeline order, but appends nothing for a document in which
the referenced field is missing; a present `null` is pushed as `null`.  So
an absent field (`none`) is skipped and a `null` (`some none`) is kept. -/
def pushUpdatedAts (docs : List EventDoc) : List (Option String) :=
  docs.filterMap (fun d => d.updatedAt)

/-- The distinct values of a list, each kept at its first occurrence. -/
def distinctKeys : List String → List String
  | [] => []
  | u :: rest => u :: (distinctKeys rest).filter (fun v => v != u)

/-- Function `find_duplicates` (lines 48–86): `$group` by `"$uid"`, accumulating
`$sum: 1`, `$push: "$_id"` and `$push: "$updatedAt"`, then `$match` on
`count > 1`.  Grouping is by `uid` alone — `agendaUid` plays no part.
Groups are listed by first occurrence of the uid; the deletion derived from
them is order-independent. -/
def find_duplicates (coll : List EventDoc) : List DupGroup :=
  ((distinctKeys (coll.map (fun d => d.uid))).map (fun u =>
    let g := coll.filter (fun d => d.uid == u)
    { uid := u
      ids := g.map (fun d => d.docId)
      updatedAts := pushUpdatedAts g
      count := g.length })).filter (fun g => decide (1 < g.count))

/-- The sort key of `deduplicate_events` line 140:
`lambda x: x[1] if x[1] else ""` — a `None` (and an empty string) key
becomes `""`. -/
def dedupSortKey (p : Nat × Option String) : String :=
  p.2.getD ""

/-- The Python `<` on strings: lexicographic comparison by code point
(identical to the Lean `String.lt`, stated on the underlying character
lists so that it evaluates by kernel reduction). -/
def charListLt : List Char → List Char → Bool
  | [], [] => false
  | [], _ :: _ => true
  | _ :: _, [] => false
  | a :: as, b :: bs =>
    if a.toNat < b.toNat then true
    else if b.toNat < a.toNat then false
    else charListLt as bs

/-- Comparison `strLtB a b` is the Python `a < b` on `str` values. -/
def strLtB (a b : String) : Bool :=
  charListLt a.data b.data

/-- Stable descending insertion: place `a` before the first element whose
key is not greater than the key of `a`.  Applied left-to-right this is
exactly the Python `list.sort(key=…, reverse=True)`: descending by key and
stable (equal keys keep collection order). -/
def insertDescBy (key : Nat × Option String → String)
    (a : Nat × Option String) :
    List (Nat × Option String) → List (Nat × Option String)
  | [] => [a]
  | b :: bs =>
    if strLtB (key a) (key b) then b :: insertDescBy key a bs
    else a :: b :: bs

/-- The call `id_date_pairs.sort(key=lambda x: x[1] if x[1] else "", reverse=True)`
(line 140), as a stable descending sort. -/
def sortPairsDesc (key : Nat × Option String → String) :
    List (Nat × Option String) → List (Nat × Option String)
  | [] => []
  | a :: as => insertDescBy key a (sortPairsDesc key as)

/-- The ids marked for deletion by one duplicate group
(`deduplicate_events` lines 128–150): zip `ids` with `updatedAts`
(`zip` truncates at the shorter list, as in Python), sort the pairs by
`updatedAt` descending (missing/None keys as `""`), keep the first pair
and delete the ids of the rest. -/
def groupIdsToDelete (g : DupGroup) : List Nat :=
  ((sortPairsDesc dedupSortKey (g.ids.zip g.updatedAts)).drop 1).map
    (fun p => p.1)

/-- Function `deduplicate_events` (lines 89–173, with `dry_run=False`): collect the
ids to delete across all duplicate groups and `delete_many` them; the
surviving collection is the filter below. -/
def deduplicate_events (coll : List EventDoc) : List EventDoc :=
  let ids_to_delete := (find_duplicates coll).flatMap groupIdsToDelete
  coll.filter (fun d => !(ids_to_delete.contains d.docId))

/-- The ingestion upsert of `get_corpus_events.py` lines 255–269:
`UpdateOne({"uid": e.uid, "agendaUid": e.agendaUid}, {"$set": e},
upsert=True)`.  If a document with the same `(uid, agendaUid)` key exists
it is overwritten in place (keeping its `_id`); otherwise the event is
inserted as a new document. -/
def upsertEvent (coll : List EventDoc) (e : EventDoc) : List EventDoc :=
  if coll.any (fun d => d.uid == e.uid && d.agendaUid == e.agendaUid) then
    coll.map (fun d =>
      if d.uid == e.uid && d.agendaUid == e.agendaUid then
        { e with docId := d.docId }
      else d)
  else
    coll ++ [e]

/-! ## Event date filter (`src/corpus/get_corpus_events.py`, lines 42–99) -/

/-- A raw upstream event as read by `should_include_event`: only
`createdAt` and `updatedAt` matter (string fields of the JSON payload;
`none` models an absent field). -/
structure RawEvent where
  uid : String
  createdAt : Option String
  updatedAt : Option String
deriving DecidableEq, Repr

/-- Function `should_include_event(event, date_filter)` (lines 42–99), parametrised
by `parse`, the model of
`datetime.fromisoformat`, after the trailing Z is replaced by the UTC
offset — `none` when parsing
raises, `some t` with `t` the timestamp on a chronological axis otherwise.

Control flow mirrors the source:
* `if not date_filter: return True` — no filter, or an empty filter string;
* parsing the filter date happens inside the outer `try`; if it raises,
  the `except` clause returns `True` (fail-open on a bad filter);
* each of `createdAt` / `updatedAt` is consulted only if truthy (present
  and non-empty); its own parse failure is swallowed by an inner
  `except … pass`; a parsed date at or after the filter returns `True`;
* otherwise `return False`.

The two structurally identical field checks (lines 68–78 and 80–90) are
the helper `dateAtOrAfterFilter` below. -/
def dateAtOrAfterFilter (parse : String → Option Int) (filter_date : Int)
    (field : Option String) : Bool :=
  match field with
  | none => false
  | some s =>
    s != "" &&
      (match parse s with
       | none => false
       | some d => decide (filter_date ≤ d))

/-- See `dateAtOrAfterFilter` for the per-field check. -/
def should_include_event (parse : String → Option Int) (event : RawEvent)
    (date_filter : Option String) : Bool :=
  match date_filter with
  | none => true
  | some df =>
    if df == "" then true
    else
      match parse df with
      | none => true
      | some filter_date =>
        dateAtOrAfterFilter parse filter_date event.createdAt ||
          dateAtOrAfterFilter parse filter_date event.updatedAt

/-- An event date field is unusable for the filter: absent, empty, or
unparseable. -/
def dateUnusable (parse : String → Option Int) (o : Option String) : Bool :=
  match o with
  | none => true
  | some s => s == "" || (parse s).isNone

/-! ## Masked average pooling (`src/embeddings/embeddings.py`, lines 82–106)

Per-token hidden states of one sequence are a list of rows (one row per
token, each of length `dim`); reals are modelled by `ℚ`.  The batch
dimension is dropped: `average_pool` below is the per-sequence computation,
applied identically to every batch row by torch broadcasting. -/

/-- Method `average_pool(last_hidden_states, attention_mask)`:
`masked_fill(~attention_mask[..., None].bool(), 0.0)` zeroes every row
whose mask entry is `0` (any non-zero entry is truthy), `.sum(dim=1)` sums
the rows, and the result is divided by `attention_mask.sum(dim=1)`. -/
def average_pool (dim : Nat) (last_hidden_states : List (List ℚ))
    (attention_mask : List Nat) : List ℚ :=
  let last_hidden :=
    (last_hidden_states.zip attention_mask).map
      (fun p => if p.2 = 0 then p.1.map (fun _ => (0 : ℚ)) else p.1)
  let sum_embeddings :=
    last_hidden.foldl (fun acc v => List.zipWith (· + ·) acc v)
      (List.replicate dim 0)
  let num_tokens : ℚ := (attention_mask.sum : ℚ)
  sum_embeddings.map (fun x => x / num_tokens)

/-- Modelled from the spec, for comparison with `average_pool`:
"compute the mean of only the real-token vectors per sequence" — keep the
rows whose mask entry is non-zero, sum them, and divide by the count of
real tokens. -/
def specRealTokenMean (dim : Nat) (hidden : List (List ℚ))
    (mask : List Nat) : List ℚ :=
  let real := ((hidden.zip mask).filter (fun p => p.2 != 0)).map (fun p => p.1)
  (real.foldl (fun acc v => List.zipWith (· + ·) acc v)
      (List.replicate dim 0)).map
    (fun x => x / (real.length : ℚ))

/-! ## Vector store and rebuild pipeline
(`src/vectors/vectors.py`, `src/pipeline.py`) -/

/-- A LangChain `Document` (a chunk): page content plus flattened
metadata. -/
structure Document where
  page_content : String
  metadata : List (String × String)
deriving DecidableEq, Repr

/-- The FAISS vector store, abstracted to the documents it indexes (the
embedding geometry is irrelevant to the claims). -/
structure VectorStore where
  docs : List Document
deriving DecidableEq, Repr

/-- Function `create_vector_store` (`vectors.py` lines 24–59): raises `ValueError`
on an empty document list (`if not documents`), otherwise builds the
store. -/
def create_vector_store (documents : List Document) :
    Except String VectorStore :=
  if documents.isEmpty then
    Except.error "La liste de documents est vide"
  else
    Except.ok { docs := documents }

/-- Filesystem side effects performed by the pipeline, in order. -/
inductive FsAction where
  | deleteIndex (path : String)
  | saveIndex (path : String) (docs : List Document)
deriving DecidableEq, Repr

/-- The on-disk state: the set of existing index directories, as an
association from path to the stored documents. -/
abbrev IndexFs := List (String × List Document)

/-- Function `delete_vector_store` (`vectors.py` lines 186–214): `rmtree` if the
path exists, warn-and-return otherwise (idempotent). -/
def delete_vector_store (fs : IndexFs) (path : String) : IndexFs :=
  fs.filter (fun p => p.1 ≠ path)

/-- Function `save_vector_store` (`vectors.py` lines 62–84): writes the store under
`save_path` (creating the directory). -/
def save_vector_store (fs : IndexFs) (vs : VectorStore) (path : String) :
    IndexFs :=
  (path, vs.docs) :: fs.filter (fun p => p.1 ≠ path)

/-- Replay the recorded filesystem actions of the pipeline against a disk
state. -/
def applyFsActions (fs : IndexFs) : List FsAction → IndexFs
  | [] => fs
  | FsAction.deleteIndex p :: rest =>
      applyFsActions (delete_vector_store fs p) rest
  | FsAction.saveIndex p docs :: rest =>
      applyFsActions (save_vector_store fs { docs := docs } p) rest

/-- Python truthiness of the `save_path` argument: `if save_path:` is
false for `None` and for the empty string. -/
def pathTruthy : Option String → Bool
  | none => false
  | some s => s != ""

/-- Function `create_vector_store_pipeline` (`pipeline.py` lines 194–294), keyed on
the result `chunks` of `process_events_to_chunks` (step 2) and on
`save_path`.  Returns the outcome together with the ordered trace of
filesystem actions:

* step 2: `if not chunks: raise ValueError(…)` — validation first, with no
  filesystem action taken;
* step 2.5: only then, `if save_path: delete_vector_store(save_path)`;
* step 3: `create_vector_store(chunks, …)`;
* step 4: `if save_path: save_vector_store(…, save_path)`;
* returns `(vector_store, len(chunks))`. -/
def create_vector_store_pipeline (chunks : List Document)
    (save_path : Option String) :
    Except String (VectorStore × Nat) × List FsAction :=
  if chunks.isEmpty then
    (Except.error
      "Aucun chunk créé. Vérifiez que des événements existent dans MongoDB.",
     [])
  else
    let acts :=
      if pathTruthy save_path then [FsAction.deleteIndex (save_path.getD "")]
      else []
    match create_vector_store chunks with
    | Except.error e => (Except.error e, acts)
    | Except.ok vs =>
      let acts :=
        acts ++
          (if pathTruthy save_path then
            [FsAction.saveIndex (save_path.getD "") vs.docs]
           else [])
      (Except.ok (vs, chunks.length), acts)

/-! ## Archival manager (`src/corpus/cleanup_mongodb.py`) -/

/-- The document database: an association from collection name to the list
of document ids it holds.  A name absent from the list is a collection
that does not exist. -/
abbrev MongoDb := List (String × List Nat)

/-- Function `collection_exists` (lines 60–71). -/
def collection_exists (db : MongoDb) (name : String) : Bool :=
  db.any (fun p => p.1 == name)

/-- Function `rename_collection` (lines 105–123):
`db[old_name].rename(new_name, dropTarget=True)`.  With `dropTarget=True`
the server first drops any existing collection named `new_name`, then
renames; the rename fails (and the function returns `False`) only when the
source collection does not exist. -/
def rename_collection (db : MongoDb) (old_name new_name : String) :
    MongoDb × Bool :=
  match db.find? (fun p => p.1 == old_name) with
  | none => (db, false)
  | some src =>
      ((new_name, src.2) ::
        db.filter (fun p => p.1 ≠ old_name ∧ p.1 ≠ new_name), true)

/-- Per-collection outcome of `backup_and_clear_for_update`. -/
structure BackupStats where
  backed_up : Bool
  cleared : Bool
  count : Nat
deriving DecidableEq, Repr

/-- One iteration of the loop of `backup_and_clear_for_update`
(lines 264–308): if the collection exists and is non-empty, rename it to
`<name>_update_<timestamp>`; an empty or missing collection is skipped. -/
def backupOneCollection (db : MongoDb) (name backup_suffix : String) :
    MongoDb × BackupStats :=
  if collection_exists db name then
    match db.find? (fun p => p.1 == name) with
    | none => (db, { backed_up := false, cleared := false, count := 0 })
    | some src =>
      if 0 < src.2.length then
        let backup_name := name ++ backup_suffix
        let (db1, success) := rename_collection db name backup_name
        if success then
          (db1, { backed_up := true, cleared := true, count := src.2.length })
        else
          (db1, { backed_up := false, cleared := false, count := 0 })
      else
        (db, { backed_up := false, cleared := false, count := 0 })
  else
    (db, { backed_up := false, cleared := false, count := 0 })

/-- Function `backup_and_clear_for_update` (lines 216–326): processes the agendas
collection then the events collection with suffix
`"_update_" + timestamp`. -/
def backup_and_clear_for_update (db : MongoDb)
    (agendas_name events_name timestamp : String) :
    MongoDb × BackupStats × BackupStats :=
  let backup_suffix := "_update_" ++ timestamp
  let (db1, agendaStats) := backupOneCollection db agendas_name backup_suffix
  let (db2, eventStats) := backupOneCollection db1 events_name backup_suffix
  (db2, agendaStats, eventStats)

/-! ## Rebuild orchestrator (`src/api/main.py`) -/

/-- The `rebuild_status` dictionary (`main.py` lines 84–89). -/
structure RebuildStatus where
  status : String
  message : String
  started_at : Option String
  last_update_date : Option String
deriving DecidableEq, Repr

/-- The module-level mutable state of the API process: the
`rebuild_in_progress` flag (line 83) and the `rebuild_status` singleton. -/
structure ApiState where
  rebuild_in_progress : Bool
  rebuild_status : RebuildStatus
deriving DecidableEq, Repr

/-- The state at module load (`main.py` lines 83–89). -/
def initialApiState : ApiState :=
  { rebuild_in_progress := false
    rebuild_status :=
      { status := "idle"
        message := "Aucun rebuild en cours"
        started_at := none
        last_update_date := none } }

/-- The `RebuildResponse` payload (`api/models.py`), with the two entries
the endpoint puts in `details`. -/
structure RebuildResponse where
  status : String
  message : String
  last_update_date : Option String
  details_started_at : Option String
  details_current_status : Option String
deriving DecidableEq, Repr

/-- Outcomes of the effectful steps of one background run of
`run_rebuild_pipeline` (`main.py` lines 397–541), read off the world it
runs against:

* `now` — `datetime.now().isoformat()` at start;
* `queryLastUpdate` — the `last_update.find_one` lookup: `Except.error`
  when pymongo raises, otherwise the `pipeline_run_date` of the most
  recent run, `none` when no run record exists;
* `countNewEvents` — the `count_documents` of events created or updated
  since that date (consulted only when a date was found);
* `runPipeline` — spawning `update_pipeline.py`: `Except.error` when the
  subprocess machinery raises, otherwise the process return code;
* `stderr` — the subprocess stderr, `none` when empty;
* `reloadIndex` — `load_vector_store` on the new on-disk index: the
  hot-swap, `Except.error` when it raises. -/
structure RebuildEnv where
  now : String
  queryLastUpdate : Except String (Option String)
  countNewEvents : Except String Nat
  runPipeline : Except String Int
  stderr : Option String
  reloadIndex : Except String Unit
deriving Repr

/-- The tail of the `try` block once the new-event check has passed
(`main.py` lines 480–534): run `update_pipeline.py`; on return code 0 try
the hot-swap, `success` if it succeeds and `success_with_warning` if it
raises; on a non-zero return code, `error` with the stderr text. -/
def rebuildAfterCountCheck (st : RebuildStatus) (env : RebuildEnv) :
    RebuildStatus :=
  match env.runPipeline with
  | Except.error e =>
      { st with status := "error", message := "Erreur lors du rebuild: " ++ e }
  | Except.ok rc =>
    if rc = 0 then
      match env.reloadIndex with
      | Except.ok _ =>
          { st with status := "success"
                    message := "Pipeline terminé avec succès. Nouvel index FAISS chargé automatiquement." }
      | Except.error _ =>
          { st with status := "success_with_warning"
                    message := "Pipeline terminé avec succès mais échec du rechargement. Redémarrez le serveur manuellement pour charger le nouvel index." }
    else
      { st with status := "error"
                message := "Échec du pipeline: " ++ env.stderr.getD "Erreur inconnue" }

/-- The body of the `try` block of `run_rebuild_pipeline`
(`main.py` lines 412–534), acting on the status singleton.  Any raised
exception is caught by the `except` clause (lines 536–539), which sets
`status = "error"`; the zero-new-events case short-circuits with
`status = "warning"` (lines 466–474). -/
def rebuildTryBody (st : RebuildStatus) (env : RebuildEnv) : RebuildStatus :=
  match env.queryLastUpdate with
  | Except.error e =>
      { st with status := "error", message := "Erreur lors du rebuild: " ++ e }
  | Except.ok lastOpt =>
    match lastOpt with
    | some d =>
      -- `rebuild_status["last_update_date"] = last_update_date` (line 444)
      let st := { st with last_update_date := some d }
      -- `if last_update_date:` (line 448) — Python truthiness
      if d = "" then rebuildAfterCountCheck st env
      else
        match env.countNewEvents with
        | Except.error e =>
            { st with status := "error"
                      message := "Erreur lors du rebuild: " ++ e }
        | Except.ok n =>
          if n = 0 then
            { st with status := "warning"
                      message := "Pas de nouveaux événements depuis la dernière exécution. Rebuild annulé." }
          else rebuildAfterCountCheck st env
    | none => rebuildAfterCountCheck st env

/-- Function `run_rebuild_pipeline` (`main.py` lines 397–541): set the status to
`running` with a fresh `started_at`, run the `try` body, and — on every
termination path, via the `finally` clause of line 540 (the warning
short-circuit also clears it explicitly at line 473 before returning) —
reset `rebuild_in_progress` to `False`. -/
def run_rebuild_pipeline (s : ApiState) (env : RebuildEnv) : ApiState :=
  let st0 :=
    { s.rebuild_status with
        status := "running"
        message := "Pipeline de mise à jour en cours..."
        started_at := some env.now }
  { rebuild_in_progress := false, rebuild_status := rebuildTryBody st0 env }

/-- The `POST /rebuild` endpoint `rebuild_index`
(`main.py` lines 544–591).  Returns the new module state, the HTTP
response, and whether a background task was scheduled
(`background_tasks.add_task(run_rebuild_pipeline)`). -/
def rebuild_index (s : ApiState) (now : String) :
    ApiState × RebuildResponse × Bool :=
  if s.rebuild_in_progress then
    (s,
     { status := "running"
       message := "Un rebuild est déjà en cours"
       last_update_date := s.rebuild_status.last_update_date
       details_started_at := s.rebuild_status.started_at
       details_current_status := some s.rebuild_status.message },
     false)
  else
    ({ s with rebuild_in_progress := true },
     { status := "started"
       message := "Pipeline de mise à jour démarré en arrière-plan. Utilisez GET /rebuild/status pour suivre la progression."
       last_update_date := none
       details_started_at := some now
       details_current_status := none },
     true)

/-! ## Theorems -/

/-- C1: if chunking yields zero chunks, `create_vector_store_pipeline`
raises (`ValueError`) before `delete_vector_store` is ever called — its
action trace is empty, so any pre-existing index directory is left intact
and unmodified — and `create_vector_store` raises on an empty document
list, so an empty index is never produced. -/
theorem pipeline_validates_before_delete (save_path : Option String)
    (fs : IndexFs) :
    (create_vector_store_pipeline [] save_path).1 =
        Except.error
          "Aucun chunk créé. Vérifiez que des événements existent dans MongoDB." ∧
    (create_vector_store_pipeline [] save_path).2 = [] ∧
    applyFsActions fs (create_vector_store_pipeline [] save_path).2 = fs ∧
    create_vector_store [] = Except.error "La liste de documents est vide" :=
  ⟨rfl, rfl, rfl, rfl⟩

/-- C9: the background rebuild task resets the in-process
`rebuild_in_progress` guard to `False` on every termination path — for
every starting state and every combination of step outcomes (success,
warning short-circuit, pipeline failure, raised exception) — so a
subsequent trigger is never rejected by a stale guard: it always schedules
new work. -/
theorem rebuild_guard_always_cleared (s : ApiState) (env : RebuildEnv)
    (now : String) :
    (run_rebuild_pipeline s env).rebuild_in_progress = false ∧
    (rebuild_index (run_rebuild_pipeline s env) now).2.2 = true :=
  ⟨rfl, rfl⟩

/-- C6: triggering a rebuild while one is already running rejects the
request: the module state (hence the recorded `started_at`) is unchanged,
no background task is scheduled, and the response reports the current
`running` status. -/
theorem rebuild_trigger_while_running_rejected (s : ApiState) (now : String)
    (h : s.rebuild_in_progress = true) :
    (rebuild_index s now).1 = s ∧
    (rebuild_index s now).2.2 = false ∧
    (rebuild_index s now).2.1.status = "running" ∧
    (rebuild_index s now).2.1.details_started_at =
      s.rebuild_status.started_at := by
  unfold rebuild_index
  rw [h]
  exact ⟨rfl, rfl, rfl, rfl⟩

/-- Witness for C6 at a concrete running state. -/
theorem rebuild_trigger_while_running_rejected_witness :
    (let s : ApiState :=
      { rebuild_in_progress := true
        rebuild_status :=
          { status := "running", message := "Pipeline de mise à jour en cours..."
            started_at := some "2024-11-03T14:30:25", last_update_date := none } }
     (rebuild_index s "2024-11-03T14:30:26").1 = s ∧
     (rebuild_index s "2024-11-03T14:30:26").2.2 = false ∧
     (rebuild_index s "2024-11-03T14:30:26").2.1.status = "running" ∧
     (rebuild_index s "2024-11-03T14:30:26").2.1.details_started_at =
       some "2024-11-03T14:30:25") :=
  rebuild_trigger_while_running_rejected _ "2024-11-03T14:30:26" rfl

/-- C2 (failing input): a duplicate group in which one contender lacks
the `updatedAt` field entirely.  `$push: "$updatedAt"` skips the
document with the missing field, so `ids = [1, 2]` is zipped against
`updatedAts = [T]`: the pair list degenerates to `[(1, T)]`, document 1
(the one *without* a timestamp) is the "kept" head, and nothing is
deleted — both documents survive, where the claim (and the docstring of
the script itself) require that only the timestamped document 2 remain. -/
theorem dedup_missing_updatedAt_leaves_both :
    deduplicate_events
        [⟨1, "X", "A", none⟩,
         ⟨2, "X", "A", some (some "2024-06-01T00:00:00.000Z")⟩] =
      [⟨1, "X", "A", none⟩,
       ⟨2, "X", "A", some (some "2024-06-01T00:00:00.000Z")⟩] ∧
    deduplicate_events
        [⟨1, "X", "A", none⟩,
         ⟨2, "X", "A", some (some "2024-06-01T00:00:00.000Z")⟩] ≠
      [⟨2, "X", "A", some (some "2024-06-01T00:00:00.000Z")⟩] := by
  constructor
  · rfl
  · decide

/-- C3 (counterexample): two records share `uid = "X"` but have different
parent catalog identifiers (`agendaUid` `"A1"` vs `"A2"`); the
deduplication pass groups by `uid` alone, so the older record is deleted —
both records do *not* survive. -/
theorem dedup_same_uid_diff_parent_collapses :
    (⟨1, "X", "A1", some (some "2024-01-01T00:00:00.000Z")⟩ : EventDoc) ∉
        deduplicate_events
          [⟨1, "X", "A1", some (some "2024-01-01T00:00:00.000Z")⟩,
           ⟨2, "X", "A2", some (some "2024-02-01T00:00:00.000Z")⟩] ∧
    deduplicate_events
        [⟨1, "X", "A1", some (some "2024-01-01T00:00:00.000Z")⟩,
         ⟨2, "X", "A2", some (some "2024-02-01T00:00:00.000Z")⟩] =
      [⟨2, "X", "A2", some (some "2024-02-01T00:00:00.000Z")⟩] := by
  constructor
  · decide
  · rfl

/-- C8 (failing input): with a backup collection
`events_update_20241103_143025` (holding document 7) already present,
running the archival backup at the colliding timestamp
`20241103_143025` renames `events` (holding document 10) onto that name
with `dropTarget=True`: the pre-existing backup is silently dropped and
replaced.  The first conjunct shows `rename_collection` alone dropping the
target; the second shows the full `backup_and_clear_for_update` run ending
with the old backup contents gone. -/
theorem backup_rename_overwrites_existing_backup :
    rename_collection
        [("events_update_20241103_143025", [7]), ("events", [10])]
        "events" "events_update_20241103_143025" =
      ([("events_update_20241103_143025", [10])], true) ∧
    (backup_and_clear_for_update
        [("agendas", []), ("events", [10]),
         ("events_update_20241103_143025", [7])]
        "agendas" "events" "20241103_143025").1 =
      [("events_update_20241103_143025", [10]), ("agendas", [])] := by
  constructor
  · rfl
  · rfl

/-- C3 (amended): ingestion upserts keyed by `(uid, agendaUid)`, so a
record with the same `uid` under a different parent is inserted alongside,
not merged; but the deduplication pass groups by `uid` alone, so of two
records sharing a `uid` with different parent catalog ids only the one
with the greater `updatedAt` survives dedup. -/
theorem dedup_collapses_by_uid_alone
    (id1 id2 : Nat) (u a1 a2 t1 t2 : String)
    (hid : id1 ≠ id2) (ha : a1 ≠ a2) (ht : strLtB t1 t2 = true) :
    upsertEvent [⟨id1, u, a1, some (some t1)⟩] ⟨id2, u, a2, some (some t2)⟩ =
        [⟨id1, u, a1, some (some t1)⟩, ⟨id2, u, a2, some (some t2)⟩] ∧
    deduplicate_events
        [⟨id1, u, a1, some (some t1)⟩, ⟨id2, u, a2, some (some t2)⟩] =
      [⟨id2, u, a2, some (some t2)⟩] := by
  constructor
  · simp [upsertEvent, ha]
  · simp [deduplicate_events, find_duplicates, distinctKeys, pushUpdatedAts,
          groupIdsToDelete, sortPairsDesc, insertDescBy, dedupSortKey, ht,
          hid, Ne.symm hid]

/-- Witness for the amended claim of C3 at concrete records. -/
theorem dedup_collapses_by_uid_alone_witness :
    upsertEvent [⟨11, "X", "A1", some (some "2024-01-01T00:00:00.000Z")⟩]
        ⟨12, "X", "A2", some (some "2024-02-01T00:00:00.000Z")⟩ =
      [⟨11, "X", "A1", some (some "2024-01-01T00:00:00.000Z")⟩,
       ⟨12, "X", "A2", some (some "2024-02-01T00:00:00.000Z")⟩] ∧
    deduplicate_events
        [⟨11, "X", "A1", some (some "2024-01-01T00:00:00.000Z")⟩,
         ⟨12, "X", "A2", some (some "2024-02-01T00:00:00.000Z")⟩] =
      [⟨12, "X", "A2", some (some "2024-02-01T00:00:00.000Z")⟩] :=
  dedup_collapses_by_uid_alone 11 12 "X" "A1" "A2"
    "2024-01-01T00:00:00.000Z" "2024-02-01T00:00:00.000Z"
    (by decide) (by decide) (by decide)

/-- C4: the curation pass keeps exactly the records whose
`longDescription` is a string of length at least 100 (code points);
records whose description is absent, null, empty, or shorter than 100 are
deleted. -/
theorem clean_events_keeps_iff (coll : List CleanDoc) (d : CleanDoc)
    (h : d ∈ coll) :
    d ∈ clean_events MIN_DESCRIPTION_LENGTH coll ↔
      ∃ s, d.longDescription = some s ∧ 100 ≤ s.length := by
  unfold clean_events
  rw [List.mem_filter]
  simp only [h, true_and]
  cases hd : d.longDescription with
  | none =>
    simp [hasNoDescription, hasShortDescription, hd]
  | some s =>
    by_cases hs : s = ""
    · subst hs
      simp [hasNoDescription, hasShortDescription, hd]
    · simp [hasNoDescription, hasShortDescription, MIN_DESCRIPTION_LENGTH,
            hd, hs]

/-- Witness for C4 at the boundary stated by the claim: a 100-character
description is
kept, a 99-character one is dropped. -/
theorem clean_events_keeps_iff_witness :
    (CleanDoc.mk 1 (some (String.mk (List.replicate 100 'a'))) ∈
        clean_events MIN_DESCRIPTION_LENGTH
          [⟨1, some (String.mk (List.replicate 100 'a'))⟩,
           ⟨2, some (String.mk (List.replicate 99 'a'))⟩]) ∧
    (CleanDoc.mk 2 (some (String.mk (List.replicate 99 'a'))) ∉
        clean_events MIN_DESCRIPTION_LENGTH
          [⟨1, some (String.mk (List.replicate 100 'a'))⟩,
           ⟨2, some (String.mk (List.replicate 99 'a'))⟩]) := by
  constructor
  · exact (clean_events_keeps_iff _ _ (by decide)).mpr
      ⟨String.mk (List.replicate 100 'a'), rfl, by decide⟩
  · intro hmem
    obtain ⟨s, hs, hlen⟩ := (clean_events_keeps_iff _ _ (by decide)).mp hmem
    cases hs
    revert hlen
    decide

/-- Adding an all-zero row of matching length leaves a vector sum
unchanged. -/
theorem zipWith_add_replicate_zero (acc : List ℚ) (n : Nat)
    (h : acc.length = n) :
    List.zipWith (· + ·) acc (List.replicate n (0 : ℚ)) = acc := by
  induction acc generalizing n with
  | nil => simp
  | cons a as ih =>
    cases n with
    | zero => simp at h
    | succ m =>
      simp only [List.replicate_succ, List.zipWith_cons_cons, add_zero]
      rw [ih m (by simpa using h)]

/-- Folding vector addition over the masked rows equals folding it over
just the rows whose mask entry is non-zero: a masked row is an all-zero
vector of width `dim` and contributes nothing. -/
theorem foldl_masked_eq_foldl_real (dim : Nat)
    (l : List (List ℚ × Nat)) (acc : List ℚ)
    (hacc : acc.length = dim) (hdim : ∀ p ∈ l, p.1.length = dim) :
    (l.map (fun p => if p.2 = 0 then p.1.map (fun _ => (0 : ℚ)) else p.1)).foldl
        (fun a v => List.zipWith (· + ·) a v) acc =
      ((l.filter (fun p => p.2 != 0)).map (fun p => p.1)).foldl
        (fun a v => List.zipWith (· + ·) a v) acc := by
  induction l generalizing acc with
  | nil => rfl
  | cons p rest ih =>
    simp only [List.map_cons, List.foldl_cons, List.filter_cons]
    by_cases h0 : p.2 = 0
    · rw [if_pos h0, if_neg (by simp [h0])]
      have hz : p.1.map (fun _ => (0 : ℚ)) = List.replicate p.1.length 0 := by
        simp
      rw [hz, zipWith_add_replicate_zero acc p.1.length
            (by rw [hacc]; exact (hdim p (by simp)).symm)]
      exact ih acc hacc (fun q hq => hdim q (List.mem_cons_of_mem p hq))
    · rw [if_neg h0, if_pos (by simp [h0])]
      simp only [List.map_cons, List.foldl_cons]
      refine ih _ ?_ (fun q hq => hdim q (List.mem_cons_of_mem p hq))
      rw [List.length_zipWith, hacc, hdim p (by simp)]
      exact Nat.min_self dim

/-- For a 0-1 mask, the mask sum counts exactly the non-zero entries. -/
theorem sum_mask_eq_count_nonzero (l : List (List ℚ × Nat))
    (hbit : ∀ p ∈ l, p.2 = 0 ∨ p.2 = 1) :
    (l.map (fun p => p.2)).sum = (l.filter (fun p => p.2 != 0)).length := by
  induction l with
  | nil => rfl
  | cons p rest ih =>
    have hrest := ih (fun q hq => hbit q (List.mem_cons_of_mem p hq))
    rcases hbit p (by simp) with h | h
    · simp [List.filter_cons, h, hrest]
    · simp [List.filter_cons, h, hrest, Nat.add_comm]

/-- C5: for every batch row (per-token hidden vectors of width `dim`) and
every 0-1 attention mask of matching length, `average_pool` returns the
mean of only the real-token (mask = 1) vectors: padding rows contribute
exactly zero to the sum, and the sum is divided by the count of real
tokens. -/
theorem average_pool_is_real_token_mean (dim : Nat)
    (hidden : List (List ℚ)) (mask : List Nat)
    (hlen : mask.length = hidden.length)
    (hdim : ∀ v ∈ hidden, v.length = dim)
    (hbit : ∀ m ∈ mask, m = 0 ∨ m = 1) :
    average_pool dim hidden mask = specRealTokenMean dim hidden mask := by
  unfold average_pool specRealTokenMean
  have hpair : ∀ p ∈ hidden.zip mask, (p : List ℚ × Nat).1.length = dim := by
    intro p hp
    exact hdim p.1 (List.of_mem_zip hp).1
  have hpairbit : ∀ p ∈ hidden.zip mask, (p : List ℚ × Nat).2 = 0 ∨ p.2 = 1 := by
    intro p hp
    exact hbit p.2 (List.of_mem_zip hp).2
  have hsnd : (hidden.zip mask).map (fun p => p.2) = mask := by
    have := List.map_snd_zip hidden mask (le_of_eq hlen)
    simpa using this
  have hsum : mask.sum =
      ((hidden.zip mask).filter (fun p => p.2 != 0)).length := by
    conv_lhs => rw [← hsnd]
    exact sum_mask_eq_count_nonzero _ hpairbit
  simp only [average_pool, specRealTokenMean]
  rw [foldl_masked_eq_foldl_real dim (hidden.zip mask) _ (by simp) hpair]
  rw [hsum, List.length_map]

/-- Witness for C5 at the concrete examples of the claim: hidden states
`[[1,2],[3,4],[0,0]]` with mask `[1,1,0]` pool to `[2,3]`, and with mask
`[1,1,1]` to `[4/3, 2]`. -/
theorem average_pool_is_real_token_mean_witness :
    average_pool 2 [[1,2],[3,4],[0,0]] [1,1,0] = [2,3] ∧
    average_pool 2 [[1,2],[3,4],[0,0]] [1,1,1] = [4/3, 2] := by
  constructor
  · rw [average_pool_is_real_token_mean 2 [[1,2],[3,4],[0,0]] [1,1,0]
        (by decide) (by norm_num) (by decide)]
    norm_num [specRealTokenMean, List.zip, List.zipWith, List.replicate,
      List.foldl]
  · rw [average_pool_is_real_token_mean 2 [[1,2],[3,4],[0,0]] [1,1,1]
        (by decide) (by norm_num) (by decide)]
    norm_num [specRealTokenMean, List.zip, List.zipWith, List.replicate,
      List.foldl]

/-- The runs of `run_rebuild_pipeline` that get past the new-event check
and reach the `update_pipeline.py` subprocess step: either no previous run
exists, or a previous run date was found (Python-falsy dates skip the
check) with a non-zero count of new events. -/
def reachesPipelineStep (env : RebuildEnv) : Prop :=
  env.queryLastUpdate = Except.ok none ∨
    ∃ d, env.queryLastUpdate = Except.ok (some d) ∧
      (d = "" ∨ ∃ n, env.countNewEvents = Except.ok n ∧ n ≠ 0)

/-- C7: when the rebuild pipeline subprocess succeeds (return code 0), the
final status is decided by the hot-swap alone — `success` when the
in-memory reload succeeds, `success_with_warning` (never `error`) when it
throws. -/
theorem rebuild_swap_outcome (s : ApiState) (env : RebuildEnv)
    (h1 : reachesPipelineStep env) (h2 : env.runPipeline = Except.ok 0) :
    (run_rebuild_pipeline s env).rebuild_status.status =
      match env.reloadIndex with
      | Except.ok _ => "success"
      | Except.error _ => "success_with_warning" := by
  rcases h1 with h | ⟨d, hq, hd⟩
  · cases hrel : env.reloadIndex <;>
      simp [run_rebuild_pipeline, rebuildTryBody, rebuildAfterCountCheck,
        h, h2, hrel]
  · by_cases hd0 : d = ""
    · cases hrel : env.reloadIndex <;>
        simp [run_rebuild_pipeline, rebuildTryBody, rebuildAfterCountCheck,
          hq, hd0, h2, hrel]
    · rcases hd with rfl | ⟨n, hc, hn⟩
      · exact absurd rfl hd0
      · cases hrel : env.reloadIndex <;>
          simp [run_rebuild_pipeline, rebuildTryBody, rebuildAfterCountCheck,
            hq, hd0, hc, hn, h2, hrel]

/-- Witness for C7: two concrete environments differing only in the
hot-swap outcome. -/
theorem rebuild_swap_outcome_witness :
    (run_rebuild_pipeline initialApiState
        { now := "2024-11-03T14:30:25"
          queryLastUpdate := Except.ok (some "2024-11-01T00:00:00.000Z")
          countNewEvents := Except.ok 42
          runPipeline := Except.ok 0
          stderr := none
          reloadIndex := Except.ok () }).rebuild_status.status =
      "success" ∧
    (run_rebuild_pipeline initialApiState
        { now := "2024-11-03T14:30:25"
          queryLastUpdate := Except.ok (some "2024-11-01T00:00:00.000Z")
          countNewEvents := Except.ok 42
          runPipeline := Except.ok 0
          stderr := none
          reloadIndex := Except.error "reload failed" }).rebuild_status.status =
      "success_with_warning" :=
  ⟨rebuild_swap_outcome _ _
      (Or.inr ⟨_, rfl, Or.inr ⟨42, rfl, by decide⟩⟩) rfl,
   rebuild_swap_outcome _ _
      (Or.inr ⟨_, rfl, Or.inr ⟨42, rfl, by decide⟩⟩) rfl⟩

/-- If a date field is unusable (absent, empty, or unparseable), its
filter check is false. -/
theorem dateAtOrAfterFilter_of_unusable (parse : String → Option Int)
    (fd : Int) (o : Option String) (h : dateUnusable parse o = true) :
    dateAtOrAfterFilter parse fd o = false := by
  cases o with
  | none => rfl
  | some s =>
    by_cases hs : s = ""
    · subst hs
      simp [dateAtOrAfterFilter]
    · have hp : parse s = none := by
        simp [dateUnusable, hs, Option.isNone_iff_eq_none] at h
        exact h
      simp [dateAtOrAfterFilter, hs, hp]

/-- C10: with a date filter set, `should_include_event` is fail-closed on
bad event dates — an event whose `createdAt` and `updatedAt` are both
missing, empty, or unparseable is excluded — yet fail-open on a bad
filter: if the filter date string itself fails to parse, every event is
included. -/
theorem should_include_event_fail_modes (parse : String → Option Int)
    (event : RawEvent) (df : String) :
    (df ≠ "" → (parse df).isSome = true →
      dateUnusable parse event.createdAt = true →
      dateUnusable parse event.updatedAt = true →
      should_include_event parse event (some df) = false) ∧
    (parse df = none → should_include_event parse event (some df) = true) := by
  constructor
  · intro hdf hfs hc hu
    obtain ⟨fd, hfd⟩ := Option.isSome_iff_exists.mp hfs
    simp [should_include_event, hdf, hfd,
      dateAtOrAfterFilter_of_unusable parse fd event.createdAt hc,
      dateAtOrAfterFilter_of_unusable parse fd event.updatedAt hu]
  · intro hnone
    by_cases hdf : df = ""
    · simp [should_include_event, hdf]
    · simp [should_include_event, hdf, hnone]

/-- Witness for C10: a parser that accepts only the filter string `"F"`.
An event with an unparseable `createdAt` and no `updatedAt` is dropped
under the parseable filter `"F"`, while the same event passes under the
unparseable filter `"G"`. -/
theorem should_include_event_fail_modes_witness :
    should_include_event (fun s => if s = "F" then some 0 else none)
        ⟨"E1", some "not-a-date", none⟩ (some "F") = false ∧
    should_include_event (fun s => if s = "F" then some 0 else none)
        ⟨"E1", some "not-a-date", none⟩ (some "G") = true :=
  ⟨(should_include_event_fail_modes (fun s => if s = "F" then some 0 else none)
      ⟨"E1", some "not-a-date", none⟩ "F").1
      (by decide) (by decide) (by decide) (by decide),
   (should_include_event_fail_modes (fun s => if s = "F" then some 0 else none)
      ⟨"E1", some "not-a-date", none⟩ "G").2 (by decide)⟩

end Project7
